import Mathlib

/-!
Verification development for the main-node access-control system.

The repository's service layer (`src/main_node/services/access_control.py`) and
the OpenCV detector backend (`src/face_recognition/backends/opencv.py`) are
embedded directly from the source.  The two-step recognition engine
(`src/face_recognition/two_step.py`: `FaceRecognizer`, `FaceImageNormalizer`)
and the backend protocol types are imported by the source but their files are
not part of the source tree, so those definitions are modelled from the spec
(sections 3, 4.2, 4.4 and 5) and marked as such in their doc comments.

Numeric conventions of the embedding: Python ints are `ℤ`, the real-valued
descriptor components are `ℚ` (so that all operations stay executable), and
the Euclidean comparison `dist(q, d) < threshold` is carried out on squared
quantities, `sqDist q d < threshSq`, which is equivalent for the nonnegative
Euclidean distance (proved below via `Real.sqrt`).
-/

/-! ## Data model -/

/-- Element dtype of a numpy array; the code only distinguishes `uint8`
from everything else (`opencv.py`, line 25). -/
inductive Dtype where
  | uint8
  | int32
  | float32
  | float64
  deriving DecidableEq, Repr

/-- A numpy image: element dtype, shape (list of dimension sizes), and an
abstract payload of samples. -/
structure NumpyImage where
  dtype : Dtype
  shape : List Nat
  data : List Nat
  deriving DecidableEq, Repr

/-- Modelled from the spec: `Rectangle` lives in the missing
`backend_protocols.py`; spec section 3 fixes it as an axis-aligned face region
(x, y, width, height). -/
structure Rectangle where
  x : Nat
  y : Nat
  width : Nat
  height : Nat
  deriving DecidableEq, Repr

/-- Area of a face rectangle. -/
def Rectangle.area (r : Rectangle) : Nat :=
  r.width * r.height

/-- A face descriptor: vector of real numbers, embedded as rationals. -/
abbrev Descriptor := List ℚ

/-- Modelled from the spec: `RecognitionResult` of the missing `two_step.py`
(spec section 3): is_known_face flag with optional matched id and distance,
rendered as an inductive with the two meaningful shapes. -/
inductive RecognitionResult where
  | known (descriptor_id : ℤ) (distance : ℚ)
  | unknown
  deriving DecidableEq, Repr

/-- The `is_known_face` field of a recognition result. -/
def RecognitionResult.is_known_face : RecognitionResult → Bool
  | known _ _ => true
  | unknown => false

/-! ## Detector backend validity predicate (`opencv.py`, lines 22-33) -/

/-- `_check_image_valid` from `src/face_recognition/backends/opencv.py`:
dtype must be uint8, rank exactly 3, third shape component in {1, 3};
guard order follows the source. -/
def _check_image_valid (image : NumpyImage) : Bool :=
  if image.dtype ≠ Dtype.uint8 then false
  else if image.shape.length ≠ 3 then false
  else if ¬ (image.shape.getD 2 0 = 1 ∨ image.shape.getD 2 0 = 3) then false
  else true

/-! ## FaceImageNormalizer (modelled from the spec, `two_step.py` missing) -/

/-- Modelled from the spec: the `FaceImageNormalizer` of the missing
`two_step.py` composes a pluggable Detector (`find_faces`) with a
crop-and-align step to canonical geometry (spec sections 2 and 4.2). -/
structure FaceImageNormalizer where
  find_faces : NumpyImage → List Rectangle
  cropAlign : NumpyImage → Rectangle → NumpyImage

/-- Modelled from the spec: pick the maximum-area rectangle, ties broken by
the detector's first-returned order (spec section 4.2); tail-recursive scan
keeping the current winner, replaced only on strictly larger area. -/
def pickLargestAux (best : Rectangle) : List Rectangle → Rectangle
  | [] => best
  | r :: rs => pickLargestAux (if best.area < r.area then r else best) rs

/-- Modelled from the spec: the selected rectangle for a detection list,
`none` when no face was detected (spec section 4.2). -/
def pickLargest : List Rectangle → Option Rectangle
  | [] => none
  | r :: rs => some (pickLargestAux r rs)

/-- The raw-image validity check the normalizer exposes; the OpenCV backend
binds it to `_check_image_valid` (`opencv.py`, line 15). -/
def FaceImageNormalizer.check_image_valid (_ : FaceImageNormalizer)
    (image : NumpyImage) : Bool :=
  _check_image_valid image

/-- Modelled from the spec: `normalize` of the missing `two_step.py` runs
detection, returns the explicit no-face outcome (`none`) on zero detections,
otherwise crops/aligns the maximum-area face (spec section 4.2). -/
def FaceImageNormalizer.normalize (N : FaceImageNormalizer)
    (image : NumpyImage) : Option NumpyImage :=
  match pickLargest (N.find_faces image) with
  | none => none
  | some r => some (N.cropAlign image r)

/-! ## FaceRecognizer (modelled from the spec, `two_step.py` missing) -/

/-- Modelled from the spec: the `FaceRecognizer` of the missing `two_step.py`
composes an Embedder backend with the DescriptorCache (spec sections 2 and
4.4).  `dim` is the fixed descriptor dimension D, `threshSq` the square of the
fixed acceptance threshold, `canonShape` the canonical normalized-image shape,
and `cache` the id-to-descriptor mapping as an association list. -/
structure FaceRecognizer where
  dim : Nat
  threshSq : ℚ
  embed : NumpyImage → Descriptor
  canonShape : List Nat
  cache : List (ℤ × Descriptor)

/-- Squared Euclidean distance between two descriptors. -/
def sqDist (a b : Descriptor) : ℚ :=
  ((a.zip b).map (fun p => (p.1 - p.2) ^ 2)).sum

/-- Keep the lexicographically smaller of two (id, squared distance)
candidates, ordering by distance first and lower id on ties. -/
def chooseMin (c best : ℤ × ℚ) : ℤ × ℚ :=
  if c.2 < best.2 ∨ (c.2 = best.2 ∧ c.1 < best.1) then c else best

/-- Fold the cache keeping the minimum-distance candidate (ties to the
lowest id). -/
def bestMatchAux (q : Descriptor) (best : ℤ × ℚ)
    (l : List (ℤ × Descriptor)) : ℤ × ℚ :=
  l.foldl (fun b p => chooseMin (p.1, sqDist q p.2) b) best

/-- Modelled from the spec: the nearest-neighbour scan of the missing
`two_step.py` over the whole cache (spec section 4.4), `none` on an empty
cache. -/
def bestMatch (q : Descriptor) : List (ℤ × Descriptor) → Option (ℤ × ℚ)
  | [] => none
  | (i, d) :: rest => some (bestMatchAux q (i, sqDist q d) rest)

/-- Modelled from the spec: `recognize_by_descriptor` of the missing
`two_step.py` (spec section 4.4): Euclidean distance to every cached
descriptor, the minimum-distance candidate matches iff its distance is
strictly below the fixed acceptance threshold (compared in squared form),
ties broken by lowest enrolled id. -/
def FaceRecognizer.recognize_by_descriptor (R : FaceRecognizer)
    (q : Descriptor) : RecognitionResult :=
  match bestMatch q R.cache with
  | none => RecognitionResult.unknown
  | some (i, dsq) =>
      if dsq < R.threshSq then RecognitionResult.known i dsq
      else RecognitionResult.unknown

/-- Modelled from the spec: the Embedder call `calculate_descriptor` of the
missing `two_step.py` (spec section 4.3). -/
def FaceRecognizer.calculate_descriptor (R : FaceRecognizer)
    (image : NumpyImage) : Descriptor :=
  R.embed image

/-- Modelled from the spec: `recognize` embeds, then behaves as
`recognize_by_descriptor` (spec section 4.4). -/
def FaceRecognizer.recognize (R : FaceRecognizer)
    (image : NumpyImage) : RecognitionResult :=
  R.recognize_by_descriptor (R.calculate_descriptor image)

/-- Modelled from the spec: `check_descriptor_valid` requires length D
(spec section 4.4); in the rational embedding every value is finite. -/
def FaceRecognizer.check_descriptor_valid (R : FaceRecognizer)
    (d : Descriptor) : Bool :=
  d.length == R.dim

/-- Modelled from the spec: `check_image_normalized` is the raw validity
check plus the canonical-size check (spec section 4.4). -/
def FaceRecognizer.check_image_normalized (R : FaceRecognizer)
    (image : NumpyImage) : Bool :=
  _check_image_valid image && (image.shape == R.canonShape)

/-- Modelled from the spec: `update_descriptors` replaces the cache
wholesale (spec section 4.4); it never touches persistent storage. -/
def FaceRecognizer.update_descriptors (R : FaceRecognizer)
    (pairs : List (ℤ × Descriptor)) : FaceRecognizer :=
  { R with cache := pairs }

/-! ## Repository data model (`services/access_control.py`, lines 16-44,
and its SQL implementation `repositories/access_control_repository.py`) -/

/-- `User` dataclass (`access_control.py`, lines 16-22). -/
structure User where
  id : ℤ
  name : String
  surname : String
  patronymic : String
  position : Option String
  deriving DecidableEq, Repr

/-- `UserFaceDescriptor` dataclass (`access_control.py`, lines 25-29). -/
structure UserFaceDescriptor where
  id : ℤ
  features : Descriptor
  user_id : ℤ
  deriving DecidableEq, Repr

/-- State of the persistent store behind `AccessControlRepository`:
the `User`, `UserFaceDescriptor` and `UserRoomAccessPermission` tables
(permissions as (user_id, room_id) pairs), plus the serial id counter used
for inserted descriptors. -/
structure RepoState where
  users : List User
  descriptors : List UserFaceDescriptor
  permissions : List (ℤ × ℤ)
  nextDescriptorId : ℤ
  deriving DecidableEq, Repr

/-- `get_user_by_id` (`access_control_repository.py`, lines 16-20). -/
def get_user_by_id (repo : RepoState) (user_id : ℤ) : Option User :=
  repo.users.find? (fun u => u.id == user_id)

/-- `get_user_by_descriptor_id` (`access_control_repository.py`, lines 9-14):
look up the descriptor row, then the user carrying its `user_id`. -/
def get_user_by_descriptor_id (repo : RepoState) (descriptor_id : ℤ) :
    Option User :=
  match repo.descriptors.find? (fun d => d.id == descriptor_id) with
  | none => none
  | some d => repo.users.find? (fun u => u.id == d.user_id)

/-- `check_access_permission_exist` (`access_control_repository.py`,
lines 22-25). -/
def check_access_permission_exist (repo : RepoState)
    (user_id room_id : ℤ) : Bool :=
  decide ((user_id, room_id) ∈ repo.permissions)

/-- `get_all_face_descriptors` (`access_control_repository.py`,
lines 39-44). -/
def get_all_face_descriptors (repo : RepoState) : List UserFaceDescriptor :=
  repo.descriptors

/-- `update_descriptor_by_user_id` (`access_control_repository.py`,
lines 66-71): delete the user's descriptor rows, insert a fresh one. -/
def update_descriptor_by_user_id (repo : RepoState) (user_id : ℤ)
    (features : Descriptor) : RepoState :=
  { repo with
    descriptors := repo.descriptors.filter (fun d => d.user_id != user_id)
      ++ [⟨repo.nextDescriptorId, features, user_id⟩],
    nextDescriptorId := repo.nextDescriptorId + 1 }

/-! ## Service result type (`services/utils.py`) -/

/-- `Result`/`Ok`/`Err` of `services/utils.py`: success flag with either a
payload or a cause string. -/
inductive SResult (α : Type) where
  | ok (result : α)
  | err (cause : String)
  deriving DecidableEq, Repr

/-- The `success` field of a service result. -/
def SResult.success {α : Type} : SResult α → Bool
  | ok _ => true
  | err _ => false

/-- `AccessCheck` response model (`access_control.py`, lines 221-224). -/
structure AccessCheck where
  is_known : Bool
  have_access : Option Bool
  user : Option User
  deriving DecidableEq, Repr

/-- `AnonymousDescriptor` response model (`access_control.py`,
lines 232-233). -/
structure AnonymousDescriptor where
  features : Descriptor
  deriving DecidableEq, Repr

/-! ## Execution-context instrumentation

Each engine or repository call made while serving a request is recorded as an
event carrying the context it ran in: `worker` when the source dispatches it
with `await to_thread(...)`, `scheduler` when it runs inline on the
cooperative scheduler thread (repository calls are awaited asynchronous I/O,
tagged `scheduler` with kind `repoCall` to keep them distinguishable from the
engine's synchronous work). -/

/-- Thread context a recorded call ran in. -/
inductive ExecCtx where
  | scheduler
  | worker
  deriving DecidableEq, Repr

/-- Kind of a recorded call. -/
inductive CallKind where
  | detectorFind
  | normalizerRun
  | embedderRun
  | cacheLookup
  | cacheSwap
  | validityCheck
  | repoCall
  deriving DecidableEq, Repr

/-- A recorded call event. -/
structure CallEv where
  kind : CallKind
  ctx : ExecCtx
  deriving DecidableEq, Repr

/-! ## AccessControlService (`services/access_control.py`, lines 96-218)

Each method is embedded as a pure function of the service state returning its
result together with the trace of recorded calls. -/

/-- `AccessControlService.__init__` fields (`access_control.py`,
lines 97-102): the repository state and the two engine components. -/
structure AccessControlService where
  repo : RepoState
  recognizer : FaceRecognizer
  normalizer : FaceImageNormalizer

/-- `check_access_by_face` (`access_control.py`, lines 104-119): reject a
non-normalized image inline, recognize on a worker thread (embedding plus
cache lookup), then resolve the matched descriptor id through the
repository. -/
def AccessControlService.check_access_by_face (S : AccessControlService)
    (room_id : ℤ) (image : NumpyImage) : SResult AccessCheck × List CallEv :=
  if S.recognizer.check_image_normalized image then
    match S.recognizer.recognize image with
    | RecognitionResult.unknown =>
        (SResult.ok ⟨false, none, none⟩,
         [⟨CallKind.validityCheck, ExecCtx.scheduler⟩,
          ⟨CallKind.embedderRun, ExecCtx.worker⟩,
          ⟨CallKind.cacheLookup, ExecCtx.worker⟩])
    | RecognitionResult.known i _dist =>
        match get_user_by_descriptor_id S.repo i with
        | none =>
            (SResult.err ("Calculated descriptor is known but not bound to user. (descriptor_id = " ++ toString i ++ ")"),
             [⟨CallKind.validityCheck, ExecCtx.scheduler⟩,
              ⟨CallKind.embedderRun, ExecCtx.worker⟩,
              ⟨CallKind.cacheLookup, ExecCtx.worker⟩,
              ⟨CallKind.repoCall, ExecCtx.scheduler⟩])
        | some u =>
            (SResult.ok ⟨true, some (check_access_permission_exist S.repo u.id room_id), some u⟩,
             [⟨CallKind.validityCheck, ExecCtx.scheduler⟩,
              ⟨CallKind.embedderRun, ExecCtx.worker⟩,
              ⟨CallKind.cacheLookup, ExecCtx.worker⟩,
              ⟨CallKind.repoCall, ExecCtx.scheduler⟩,
              ⟨CallKind.repoCall, ExecCtx.scheduler⟩])
  else
    (SResult.err ("Provided image is not normalized."),
     [⟨CallKind.validityCheck, ExecCtx.scheduler⟩])

/-- `check_access_by_descriptor` (`access_control.py`, lines 121-136):
validate the descriptor inline, match it against the cache inline, then
resolve the matched descriptor id through the repository. -/
def AccessControlService.check_access_by_descriptor (S : AccessControlService)
    (room_id : ℤ) (descriptor : Descriptor) :
    SResult AccessCheck × List CallEv :=
  if S.recognizer.check_descriptor_valid descriptor then
    match S.recognizer.recognize_by_descriptor descriptor with
    | RecognitionResult.unknown =>
        (SResult.ok ⟨false, none, none⟩,
         [⟨CallKind.validityCheck, ExecCtx.scheduler⟩,
          ⟨CallKind.cacheLookup, ExecCtx.scheduler⟩])
    | RecognitionResult.known i _dist =>
        match get_user_by_descriptor_id S.repo i with
        | none =>
            (SResult.err ("Provided descriptor is known, but not bound to user. (descriptor_id = " ++ toString i ++ ")"),
             [⟨CallKind.validityCheck, ExecCtx.scheduler⟩,
              ⟨CallKind.cacheLookup, ExecCtx.scheduler⟩,
              ⟨CallKind.repoCall, ExecCtx.scheduler⟩])
        | some u =>
            (SResult.ok ⟨true, some (check_access_permission_exist S.repo u.id room_id), some u⟩,
             [⟨CallKind.validityCheck, ExecCtx.scheduler⟩,
              ⟨CallKind.cacheLookup, ExecCtx.scheduler⟩,
              ⟨CallKind.repoCall, ExecCtx.scheduler⟩,
              ⟨CallKind.repoCall, ExecCtx.scheduler⟩])
  else
    (SResult.err ("Provided descriptor is invalid."),
     [⟨CallKind.validityCheck, ExecCtx.scheduler⟩])

/-- `calculate_descriptor` (`access_control.py`, lines 147-158): reject an
invalid image inline, normalize on a worker thread (detection happens inside
the offloaded normalize), embed on a worker thread; a failed normalization is
reported as an error result. -/
def AccessControlService.calculate_descriptor (S : AccessControlService)
    (image : NumpyImage) : SResult AnonymousDescriptor × List CallEv :=
  if S.normalizer.check_image_valid image then
    match S.normalizer.normalize image with
    | none =>
        (SResult.err ("Can\x27t normalize image. Maybe there is no face."),
         [⟨CallKind.validityCheck, ExecCtx.scheduler⟩,
          ⟨CallKind.detectorFind, ExecCtx.worker⟩])
    | some normalized_image =>
        (SResult.ok ⟨S.recognizer.calculate_descriptor normalized_image⟩,
         [⟨CallKind.validityCheck, ExecCtx.scheduler⟩,
          ⟨CallKind.detectorFind, ExecCtx.worker⟩,
          ⟨CallKind.normalizerRun, ExecCtx.worker⟩,
          ⟨CallKind.embedderRun, ExecCtx.worker⟩])
  else
    (SResult.err ("Provided image is invalid."),
     [⟨CallKind.validityCheck, ExecCtx.scheduler⟩])

/-- `_load_descriptors` (`access_control.py`, lines 211-215): read all
descriptor rows and feed them to `update_descriptors` as (id, features)
pairs. -/
def load_descriptors (repo : RepoState) (R : FaceRecognizer) :
    FaceRecognizer :=
  R.update_descriptors
    ((get_all_face_descriptors repo).map (fun d => (d.id, d.features)))

/-- `update_user_descriptor` (`access_control.py`, lines 175-181): check the
user exists, persist the new descriptor, then reload the whole cache. -/
def AccessControlService.update_user_descriptor (S : AccessControlService)
    (user_id : ℤ) (descriptor : Descriptor) :
    AccessControlService × SResult Unit × List CallEv :=
  match get_user_by_id S.repo user_id with
  | none =>
      (S, SResult.err ("Unknown user id."),
       [⟨CallKind.repoCall, ExecCtx.scheduler⟩])
  | some _ =>
      let repo2 := update_descriptor_by_user_id S.repo user_id descriptor
      ({ S with repo := repo2, recognizer := load_descriptors repo2 S.recognizer },
       SResult.ok (),
       [⟨CallKind.repoCall, ExecCtx.scheduler⟩,
        ⟨CallKind.repoCall, ExecCtx.scheduler⟩,
        ⟨CallKind.repoCall, ExecCtx.scheduler⟩,
        ⟨CallKind.cacheSwap, ExecCtx.scheduler⟩])

/-- `init` (`access_control.py`, lines 217-218): startup loads the full
descriptor cache. -/
def AccessControlService.init (S : AccessControlService) :
    AccessControlService × List CallEv :=
  ({ S with recognizer := load_descriptors S.repo S.recognizer },
   [⟨CallKind.repoCall, ExecCtx.scheduler⟩,
    ⟨CallKind.cacheSwap, ExecCtx.scheduler⟩])

/-! ## Micro-step model of the atomic cache replace (spec sections 4.4, 5)

Modelled from the spec: `update_descriptors` of the missing `two_step.py`
builds a fresh map from the pairs and then swaps it into the shared cache
reference in one step.  The machine below makes the interleaving points
explicit: one micro-step per entry added to the private map under
construction, then a single micro-step publishing it.  A concurrent reader
observes only the `shared` field. -/

/-- State of an in-flight `update_descriptors` call: the published cache a
reader sees, the private map under construction, the entries still to add,
and whether the final swap happened. -/
structure UpdaterState where
  shared : List (ℤ × Descriptor)
  built : List (ℤ × Descriptor)
  pending : List (ℤ × Descriptor)
  swapped : Bool
  deriving DecidableEq, Repr

/-- One micro-step of the update: move one pending entry into the private
map, or, once all entries are placed, publish the private map in a single
swap. -/
def updStep (s : UpdaterState) : UpdaterState :=
  match s.pending with
  | p :: rest => { s with built := s.built ++ [p], pending := rest }
  | [] =>
      if s.swapped then s
      else { s with shared := s.built, swapped := true }

/-- Initial state of an update: the old cache is still published, nothing is
built yet. -/
def initUpd (old pairs : List (ℤ × Descriptor)) : UpdaterState :=
  ⟨old, [], pairs, false⟩

/-- The updater state after `k` micro-steps. -/
def runUpdater (old pairs : List (ℤ × Descriptor)) (k : Nat) : UpdaterState :=
  updStep^[k] (initUpd old pairs)

/-! ## Engine operation traces (spec sections 5, 7, 8)

A sequence of engine operations (cache replaces and recognitions) run against
a recognizer state, recording the recognition outputs; recognition never
mutates the state. -/

/-- An operation of the recognition engine. -/
inductive EngineOp where
  | upd (pairs : List (ℤ × Descriptor))
  | recq (q : Descriptor)

/-- Run a list of engine operations, returning the final recognizer state and
the outputs of the recognition operations in order. -/
def runOps (R : FaceRecognizer) :
    List EngineOp → FaceRecognizer × List RecognitionResult
  | [] => (R, [])
  | EngineOp.upd pairs :: rest => runOps (R.update_descriptors pairs) rest
  | EngineOp.recq q :: rest =>
      let out := runOps R rest
      (out.1, R.recognize_by_descriptor q :: out.2)

/-! ## Concrete instances used by the witnesses and counterexamples -/

/-- A valid 4x4 3-channel uint8 image. -/
def validImg : NumpyImage :=
  ⟨Dtype.uint8, [4, 4, 3], []⟩

/-- An invalid image: float64 dtype. -/
def invalidImg : NumpyImage :=
  ⟨Dtype.float64, [4, 4, 3], []⟩

/-- A valid 8x8 1-channel uint8 image of the canonical shape used by the
example recognizer. -/
def canonImg : NumpyImage :=
  ⟨Dtype.uint8, [8, 8, 1], []⟩

/-- Example recognizer: dimension 0, squared threshold 1, constant embedder,
canonical shape 8x8x1, cache holding descriptor id 5 with empty features
(dimension 0 keeps every arithmetic step kernel-reducible). -/
def exRecognizer : FaceRecognizer :=
  ⟨0, 1, fun _ => [], [8, 8, 1], [(5, [])]⟩

/-- Example normalizer whose detector finds no faces anywhere. -/
def noFaceNormalizer : FaceImageNormalizer :=
  ⟨fun _ => [], fun img _ => img⟩

/-- Example normalizer whose detector always finds one face. -/
def oneFaceNormalizer : FaceImageNormalizer :=
  ⟨fun _ => [⟨0, 0, 2, 2⟩], fun _ _ => canonImg⟩

/-- Example repository state: one user (id 3) with no descriptor rows, so
descriptor id 5 is bound to no user. -/
def exRepo : RepoState :=
  ⟨[⟨3, "A", "B", "C", none⟩], [], [], 1⟩

/-- Example repository state with a descriptor row (id 5) bound to the
single user (id 3). -/
def exRepoBound : RepoState :=
  ⟨[⟨3, "A", "B", "C", none⟩], [⟨5, [], 3⟩], [(3, 2)], 6⟩

/-- Example service whose detector never finds a face. -/
def noFaceService : AccessControlService :=
  ⟨exRepo, exRecognizer, noFaceNormalizer⟩

/-- Example service whose detector always finds a face and whose cached
descriptor id 5 is bound to no user. -/
def exService : AccessControlService :=
  ⟨exRepo, exRecognizer, oneFaceNormalizer⟩

/-- Example service whose cached descriptor id 5 is bound to user 3. -/
def boundService : AccessControlService :=
  ⟨exRepoBound, exRecognizer, oneFaceNormalizer⟩

/-! ## Specification-side predicates used in the theorem statements -/

/-- Ordering on (id, squared distance) candidates used to state the matching
contract: strictly smaller distance, or equal distance and an id that is not
larger. -/
def lexLe (a b : ℤ × ℚ) : Prop :=
  a.2 < b.2 ∨ (a.2 = b.2 ∧ a.1 ≤ b.1)

/-- The offloading discipline of spec section 5 for one recorded call:
CPU-bound detection, normalization and embedding must run on a worker
thread, and any synchronous engine computation left on the scheduler thread
is a cache read/write or a cheap validity check.  Repository calls
(`repoCall`) are awaited asynchronous I/O outside the engine, so they are
exempted from the second clause. -/
def offloadOk (e : CallEv) : Prop :=
  ((e.kind = CallKind.detectorFind ∨ e.kind = CallKind.normalizerRun ∨
      e.kind = CallKind.embedderRun) → e.ctx = ExecCtx.worker)
  ∧ ((e.ctx = ExecCtx.scheduler ∧ e.kind ≠ CallKind.repoCall) →
      (e.kind = CallKind.cacheLookup ∨ e.kind = CallKind.cacheSwap ∨
        e.kind = CallKind.validityCheck))

instance (e : CallEv) : Decidable (offloadOk e) := by
  unfold offloadOk
  infer_instance

/-! # Theorems -/

/-! ## Helper lemmas about the nearest-neighbour scan -/

/-- A squared distance is nonnegative. -/
theorem sqDist_nonneg (a b : Descriptor) : 0 ≤ sqDist a b := by
  unfold sqDist
  apply List.sum_nonneg
  intro x hx
  simp only [List.mem_map] at hx
  obtain ⟨p, -, rfl⟩ := hx
  positivity

/-- `lexLe` is reflexive. -/
theorem lexLe_refl (a : ℤ × ℚ) : lexLe a a :=
  Or.inr ⟨rfl, le_refl _⟩

/-- `lexLe` is transitive. -/
theorem lexLe_trans {a b c : ℤ × ℚ} (h1 : lexLe a b) (h2 : lexLe b c) :
    lexLe a c := by
  rcases h1 with h1 | ⟨e1, l1⟩ <;> rcases h2 with h2 | ⟨e2, l2⟩
  · exact Or.inl (lt_trans h1 h2)
  · exact Or.inl (lt_of_lt_of_eq h1 e2)
  · exact Or.inl (lt_of_eq_of_lt e1 h2)
  · exact Or.inr ⟨e1.trans e2, le_trans l1 l2⟩

/-- `lexLe` implies inequality of the distance components. -/
theorem lexLe_snd_le {a b : ℤ × ℚ} (h : lexLe a b) : a.2 ≤ b.2 := by
  rcases h with h | ⟨e, -⟩
  · exact le_of_lt h
  · exact le_of_eq e

/-- The kept candidate is `lexLe` the new candidate. -/
theorem chooseMin_le_left (c best : ℤ × ℚ) : lexLe (chooseMin c best) c := by
  unfold chooseMin
  split
  · exact lexLe_refl c
  · next h =>
    push_neg at h
    obtain ⟨h1, h2⟩ := h
    rcases eq_or_lt_of_le h1 with he | hl
    · exact Or.inr ⟨he, h2 he.symm⟩
    · exact Or.inl hl

/-- The kept candidate is `lexLe` the current best. -/
theorem chooseMin_le_right (c best : ℤ × ℚ) :
    lexLe (chooseMin c best) best := by
  unfold chooseMin
  split
  · next h =>
    rcases h with h | ⟨e, l⟩
    · exact Or.inl h
    · exact Or.inr ⟨e, le_of_lt l⟩
  · exact lexLe_refl best

/-- The kept candidate is one of the two inputs. -/
theorem chooseMin_eq_or (c best : ℤ × ℚ) :
    chooseMin c best = c ∨ chooseMin c best = best := by
  unfold chooseMin
  split
  · exact Or.inl rfl
  · exact Or.inr rfl

/-- The fold steps one element at a time. -/
theorem bestMatchAux_cons (q : Descriptor) (best : ℤ × ℚ)
    (a : ℤ × Descriptor) (l : List (ℤ × Descriptor)) :
    bestMatchAux q best (a :: l)
      = bestMatchAux q (chooseMin (a.1, sqDist q a.2) best) l :=
  rfl

/-- The fold result is `lexLe` its initial candidate. -/
theorem bestMatchAux_le_init (q : Descriptor) :
    ∀ (l : List (ℤ × Descriptor)) (best : ℤ × ℚ),
      lexLe (bestMatchAux q best l) best := by
  intro l
  induction l with
  | nil => intro best; exact lexLe_refl best
  | cons a l ih =>
    intro best
    rw [bestMatchAux_cons]
    exact lexLe_trans (ih _) (chooseMin_le_right _ _)

/-- The fold result is `lexLe` the candidate of every scanned entry. -/
theorem bestMatchAux_le_mem (q : Descriptor) :
    ∀ (l : List (ℤ × Descriptor)) (best : ℤ × ℚ) (p : ℤ × Descriptor),
      p ∈ l → lexLe (bestMatchAux q best l) (p.1, sqDist q p.2) := by
  intro l
  induction l with
  | nil => intro best p hp; cases hp
  | cons a l ih =>
    intro best p hp
    rw [bestMatchAux_cons]
    rcases List.mem_cons.mp hp with rfl | hp
    · exact lexLe_trans (bestMatchAux_le_init q l _) (chooseMin_le_left _ _)
    · exact ih _ p hp

/-- The fold result is the initial candidate or comes from a scanned
entry. -/
theorem bestMatchAux_mem (q : Descriptor) :
    ∀ (l : List (ℤ × Descriptor)) (best : ℤ × ℚ),
      bestMatchAux q best l = best
        ∨ ∃ p ∈ l, bestMatchAux q best l = (p.1, sqDist q p.2) := by
  intro l
  induction l with
  | nil => intro best; exact Or.inl rfl
  | cons a l ih =>
    intro best
    rw [bestMatchAux_cons]
    rcases ih (chooseMin (a.1, sqDist q a.2) best) with h | ⟨p, hp, he⟩
    · rcases chooseMin_eq_or (a.1, sqDist q a.2) best with hc | hc
      · exact Or.inr ⟨a, List.mem_cons_self a l, by rw [h, hc]⟩
      · exact Or.inl (by rw [h, hc])
    · exact Or.inr ⟨p, List.mem_cons_of_mem a hp, he⟩

/-- `bestMatch` returns `none` exactly on the empty cache. -/
theorem bestMatch_eq_none_iff (q : Descriptor)
    (cache : List (ℤ × Descriptor)) :
    bestMatch q cache = none ↔ cache = [] := by
  cases cache with
  | nil => simp [bestMatch]
  | cons a rest => simp [bestMatch]

/-- A returned best candidate is `lexLe` every cached candidate. -/
theorem bestMatch_le (q : Descriptor) (cache : List (ℤ × Descriptor))
    (j : ℤ) (m : ℚ) (h : bestMatch q cache = some (j, m)) :
    ∀ p ∈ cache, lexLe (j, m) (p.1, sqDist q p.2) := by
  cases cache with
  | nil => cases h
  | cons a rest =>
    have h' : bestMatchAux q (a.1, sqDist q a.2) rest = (j, m) := by
      have : bestMatch q (a :: rest)
          = some (bestMatchAux q (a.1, sqDist q a.2) rest) := by
        cases a; rfl
      rw [this] at h
      exact Option.some.inj h
    intro p hp
    rcases List.mem_cons.mp hp with rfl | hp
    · rw [← h']
      exact bestMatchAux_le_init q rest _
    · rw [← h']
      exact bestMatchAux_le_mem q rest _ p hp

/-- A returned best candidate comes from a cached entry. -/
theorem bestMatch_mem (q : Descriptor) (cache : List (ℤ × Descriptor))
    (j : ℤ) (m : ℚ) (h : bestMatch q cache = some (j, m)) :
    ∃ p ∈ cache, p.1 = j ∧ sqDist q p.2 = m := by
  cases cache with
  | nil => cases h
  | cons a rest =>
    have h' : bestMatchAux q (a.1, sqDist q a.2) rest = (j, m) := by
      have : bestMatch q (a :: rest)
          = some (bestMatchAux q (a.1, sqDist q a.2) rest) := by
        cases a; rfl
      rw [this] at h
      exact Option.some.inj h
    rcases bestMatchAux_mem q rest (a.1, sqDist q a.2) with h0 | ⟨p, hp, hpe⟩
    · refine ⟨a, List.mem_cons_self a rest, ?_, ?_⟩
      · rw [h0] at h'
        exact congrArg Prod.fst h'
      · rw [h0] at h'
        exact congrArg Prod.snd h'
    · refine ⟨p, List.mem_cons_of_mem a hp, ?_, ?_⟩
      · rw [hpe] at h'
        exact congrArg Prod.fst h'
      · rw [hpe] at h'
        exact congrArg Prod.snd h'

/-- Strict comparison of nonnegative rationals matches strict comparison of
their square roots over the reals. -/
theorem lt_iff_sqrt_lt (a t : ℚ) (ha : 0 ≤ a) :
    a < t ↔ Real.sqrt (a : ℝ) < Real.sqrt (t : ℝ) := by
  have ha' : (0 : ℝ) ≤ (a : ℝ) := by exact_mod_cast ha
  constructor
  · intro h
    exact Real.sqrt_lt_sqrt ha' (by exact_mod_cast h)
  · intro h
    have := (Real.sqrt_lt_sqrt_iff ha').mp h
    exact_mod_cast this

/-! ## Claim theorems -/

/-- Claim C1: for every query descriptor and cache state,
`recognize_by_descriptor` matches the minimum-Euclidean-distance cached
candidate iff that minimum is strictly below the fixed acceptance threshold
(both compared through their squares, equivalently through `Real.sqrt`),
ties at the minimum are broken by the lowest enrolled id, and after
`update_descriptors []` every call reports `is_known_face = false`. -/
theorem recognize_by_descriptor_spec (R : FaceRecognizer) (q : Descriptor) :
    ((R.recognize_by_descriptor q).is_known_face = true ↔
      ∃ p ∈ R.cache,
        Real.sqrt ((sqDist q p.2 : ℚ) : ℝ) < Real.sqrt ((R.threshSq : ℚ) : ℝ))
    ∧ (∀ i dsq, R.recognize_by_descriptor q = RecognitionResult.known i dsq →
        (∃ p ∈ R.cache, p.1 = i ∧ sqDist q p.2 = dsq)
        ∧ dsq < R.threshSq
        ∧ (∀ p ∈ R.cache, dsq ≤ sqDist q p.2)
        ∧ (∀ p ∈ R.cache,
            Real.sqrt ((dsq : ℚ) : ℝ) ≤ Real.sqrt ((sqDist q p.2 : ℚ) : ℝ))
        ∧ (∀ p ∈ R.cache, sqDist q p.2 = dsq → i ≤ p.1))
    ∧ ((R.update_descriptors []).recognize_by_descriptor q).is_known_face
        = false := by
  have hrat : (R.recognize_by_descriptor q).is_known_face = true ↔
      ∃ p ∈ R.cache, sqDist q p.2 < R.threshSq := by
    unfold FaceRecognizer.recognize_by_descriptor
    cases hbm : bestMatch q R.cache with
    | none =>
      have hc : R.cache = [] := (bestMatch_eq_none_iff q R.cache).mp hbm
      simp [RecognitionResult.is_known_face, hc]
    | some jm =>
      obtain ⟨j, m⟩ := jm
      show (if m < R.threshSq then RecognitionResult.known j m
          else RecognitionResult.unknown).is_known_face = true ↔ _
      by_cases hlt : m < R.threshSq
      · rw [if_pos hlt]
        obtain ⟨p, hp, -, hpm⟩ := bestMatch_mem q R.cache j m hbm
        refine iff_of_true rfl ⟨p, hp, ?_⟩
        rw [hpm]
        exact hlt
      · rw [if_neg hlt]
        refine iff_of_false (by simp [RecognitionResult.is_known_face]) ?_
        rintro ⟨p, hp, hplt⟩
        have hle : m ≤ sqDist q p.2 :=
          lexLe_snd_le (bestMatch_le q R.cache j m hbm p hp)
        exact hlt (lt_of_le_of_lt hle hplt)
  refine ⟨?_, ?_, ?_⟩
  · refine hrat.trans (exists_congr fun p => and_congr_right fun _ => ?_)
    exact lt_iff_sqrt_lt _ _ (sqDist_nonneg _ _)
  · intro i dsq h
    unfold FaceRecognizer.recognize_by_descriptor at h
    cases hbm : bestMatch q R.cache with
    | none =>
      rw [hbm] at h
      have h2 : RecognitionResult.unknown = RecognitionResult.known i dsq := h
      cases h2
    | some jm =>
      obtain ⟨j, m⟩ := jm
      rw [hbm] at h
      have h2 : (if m < R.threshSq then RecognitionResult.known j m
          else RecognitionResult.unknown) = RecognitionResult.known i dsq := h
      by_cases hlt : m < R.threshSq
      · rw [if_pos hlt] at h2
        injection h2 with e1 e2
        subst e1
        subst e2
        refine ⟨bestMatch_mem q R.cache j m hbm, hlt, ?_, ?_, ?_⟩
        · intro p hp
          exact lexLe_snd_le (bestMatch_le q R.cache j m hbm p hp)
        · intro p hp
          have hle : m ≤ sqDist q p.2 :=
            lexLe_snd_le (bestMatch_le q R.cache j m hbm p hp)
          exact Real.sqrt_le_sqrt (by exact_mod_cast hle)
        · intro p hp he
          rcases bestMatch_le q R.cache j m hbm p hp with hlt2 | ⟨-, hle⟩
          · rw [he] at hlt2
            exact absurd hlt2 (lt_irrefl _)
          · exact hle
      · rw [if_neg hlt] at h2
        cases h2
  · rfl

/-- Claim C1 witness: on the concrete example recognizer the matching
contract and the empty-cache clause are realized. -/
theorem recognize_by_descriptor_spec_witness :
    exRecognizer.recognize_by_descriptor [] = RecognitionResult.known 5 0
    ∧ (0 : ℚ) < exRecognizer.threshSq
    ∧ ((exRecognizer.update_descriptors
        []).recognize_by_descriptor []).is_known_face = false := by
  refine ⟨by decide, ?_, (recognize_by_descriptor_spec exRecognizer []).2.2⟩
  exact ((recognize_by_descriptor_spec exRecognizer []).2.1 5 0 (by decide)).2.1

/-- Claim C2 counterexample: on a concrete valid image where detection finds
zero faces, `normalize` does return the no-face outcome, but the service's
`calculate_descriptor` reports it as an error result (`success = false` with
the no-face cause), not as a success-style result as the claim states. -/
theorem calculate_descriptor_no_face_counterexample :
    noFaceService.normalizer.check_image_valid validImg = true
    ∧ noFaceService.normalizer.find_faces validImg = []
    ∧ noFaceService.normalizer.normalize validImg = none
    ∧ (noFaceService.calculate_descriptor validImg).1.success = false
    ∧ (noFaceService.calculate_descriptor validImg).1
        = SResult.err ("Can\x27t normalize image. Maybe there is no face.") := by
  refine ⟨by decide, by decide, by decide, by decide, by decide⟩

/-- Claim C2 (amended): on every valid image with zero detections,
`normalize` returns the no-face outcome (`none`) as a normal value (the
embedding is total, so no exception is possible), and the service's
`calculate_descriptor` wraps it in an error result carrying the no-face
cause. -/
theorem calculate_descriptor_no_face (S : AccessControlService)
    (image : NumpyImage)
    (h1 : S.normalizer.check_image_valid image = true)
    (h2 : S.normalizer.find_faces image = []) :
    S.normalizer.normalize image = none
    ∧ (S.calculate_descriptor image).1
        = SResult.err ("Can\x27t normalize image. Maybe there is no face.")
    ∧ (S.calculate_descriptor image).1.success = false := by
  have hn : S.normalizer.normalize image = none := by
    unfold FaceImageNormalizer.normalize
    rw [h2]
    rfl
  have hc : (S.calculate_descriptor image).1
      = SResult.err ("Can\x27t normalize image. Maybe there is no face.") := by
    unfold AccessControlService.calculate_descriptor
    rw [FaceImageNormalizer.check_image_valid] at h1
    simp [FaceImageNormalizer.check_image_valid, h1, hn]
  refine ⟨hn, hc, ?_⟩
  rw [hc]
  rfl

/-- Claim C2 amended-claim witness at the concrete no-face service. -/
theorem calculate_descriptor_no_face_witness :
    noFaceService.normalizer.normalize validImg = none
    ∧ (noFaceService.calculate_descriptor validImg).1.success = false := by
  have h := calculate_descriptor_no_face noFaceService validImg
    (by decide) (by decide)
  exact ⟨h.1, h.2.2⟩

/-- Claim C3: `_check_image_valid` returns true exactly when the dtype is
unsigned 8-bit, the rank is exactly 3, and the third shape component is 1 or
3; as a total Lean function it cannot raise on any well-formed array
value. -/
theorem check_image_valid_iff (image : NumpyImage) :
    _check_image_valid image = true ↔
      (image.dtype = Dtype.uint8 ∧ image.shape.length = 3 ∧
        (image.shape.getD 2 0 = 1 ∨ image.shape.getD 2 0 = 3)) := by
  unfold _check_image_valid
  by_cases h1 : image.dtype = Dtype.uint8 <;>
    by_cases h2 : image.shape.length = 3 <;>
      by_cases h3 : image.shape.getD 2 0 = 1 ∨ image.shape.getD 2 0 = 3 <;>
        simp [h1, h2, h3]

/-- Claim C3 witness: the predicate evaluated through the equivalence at a
concrete valid image. -/
theorem check_image_valid_iff_witness :
    _check_image_valid validImg = true :=
  (check_image_valid_iff validImg).mpr (by decide)

/-- Claim C4: an image failing the validity predicate makes the service's
`calculate_descriptor` return the invalid-image error with only the inline
validity check in its trace: no detection, no normalization, and no
embedding call is ever made. -/
theorem invalid_image_fails_fast (S : AccessControlService)
    (image : NumpyImage)
    (h : S.normalizer.check_image_valid image = false) :
    S.calculate_descriptor image
      = (SResult.err ("Provided image is invalid."),
         [⟨CallKind.validityCheck, ExecCtx.scheduler⟩])
    ∧ ∀ e ∈ (S.calculate_descriptor image).2,
        e.kind ≠ CallKind.detectorFind ∧ e.kind ≠ CallKind.normalizerRun ∧
          e.kind ≠ CallKind.embedderRun := by
  have he : S.calculate_descriptor image
      = (SResult.err ("Provided image is invalid."),
         [⟨CallKind.validityCheck, ExecCtx.scheduler⟩]) := by
    unfold AccessControlService.calculate_descriptor
    simp [h]
  refine ⟨he, ?_⟩
  rw [he]
  intro e hme
  rcases List.mem_singleton.mp hme with rfl
  exact ⟨by decide, by decide, by decide⟩

/-- Claim C4 witness at a concrete invalid (float64) image. -/
theorem invalid_image_fails_fast_witness :
    exService.normalizer.check_image_valid invalidImg = false
    ∧ exService.calculate_descriptor invalidImg
        = (SResult.err ("Provided image is invalid."),
           [⟨CallKind.validityCheck, ExecCtx.scheduler⟩]) :=
  ⟨by decide, (invalid_image_fails_fast exService invalidImg (by decide)).1⟩

/-- Claim C5: the cache is always installed as a bulk full replace of the
complete repository descriptor set — at service init and after every
successful `update_user_descriptor` — and the installed cache never depends
on the recognizer's previous cache (no incremental patching). -/
theorem descriptor_cache_full_replace :
    (∀ S : AccessControlService,
      (S.init).1.recognizer.cache
        = (get_all_face_descriptors (S.init).1.repo).map
            (fun d => (d.id, d.features)))
    ∧ (∀ (S : AccessControlService) (uid : ℤ) (desc : Descriptor),
        (S.update_user_descriptor uid desc).2.1.success = true →
          (S.update_user_descriptor uid desc).1.recognizer.cache
            = (get_all_face_descriptors
                (S.update_user_descriptor uid desc).1.repo).map
                (fun d => (d.id, d.features)))
    ∧ (∀ (S S2 : AccessControlService) (uid : ℤ) (desc : Descriptor),
        S.repo = S2.repo →
        (S.update_user_descriptor uid desc).2.1.success = true →
        (S.update_user_descriptor uid desc).1.recognizer.cache
          = (S2.update_user_descriptor uid desc).1.recognizer.cache) := by
  refine ⟨fun S => rfl, ?_, ?_⟩
  · intro S uid desc hs
    unfold AccessControlService.update_user_descriptor at hs ⊢
    cases hu : get_user_by_id S.repo uid with
    | none =>
      rw [hu] at hs
      exact Bool.noConfusion hs
    | some u =>
      rfl
  · intro S S2 uid desc hrepo hs
    unfold AccessControlService.update_user_descriptor at hs ⊢
    rw [← hrepo]
    cases hu : get_user_by_id S.repo uid with
    | none =>
      rw [hu] at hs
      exact Bool.noConfusion hs
    | some u =>
      rfl

/-- Claim C5 witness: a successful enrollment update at the concrete service
reinstalls the full repository descriptor set. -/
theorem descriptor_cache_full_replace_witness :
    (noFaceService.update_user_descriptor 3 []).2.1.success = true
    ∧ (noFaceService.update_user_descriptor 3 []).1.recognizer.cache
        = (get_all_face_descriptors
            (noFaceService.update_user_descriptor 3 []).1.repo).map
            (fun d => (d.id, d.features)) :=
  ⟨by decide, descriptor_cache_full_replace.2.1 noFaceService 3 [] (by decide)⟩

/-- One update micro-step preserves the swap-discipline invariant. -/
theorem updStep_inv {old pairs : List (ℤ × Descriptor)} {s : UpdaterState}
    (h : (s.swapped = false ∧ s.shared = old ∧ s.built ++ s.pending = pairs)
       ∨ (s.swapped = true ∧ s.shared = pairs ∧ s.built = pairs
            ∧ s.pending = [])) :
    ((updStep s).swapped = false ∧ (updStep s).shared = old
        ∧ (updStep s).built ++ (updStep s).pending = pairs)
    ∨ ((updStep s).swapped = true ∧ (updStep s).shared = pairs
        ∧ (updStep s).built = pairs ∧ (updStep s).pending = []) := by
  obtain ⟨sh, bu, pe, sw⟩ := s
  rcases h with ⟨h1, h2, h3⟩ | ⟨h1, h2, h3, h4⟩
  · simp only at h1 h2 h3
    subst h1
    subst h2
    cases pe with
    | nil =>
      rw [List.append_nil] at h3
      right
      exact ⟨rfl, h3, h3, rfl⟩
    | cons p rest =>
      left
      refine ⟨rfl, rfl, ?_⟩
      show (bu ++ [p]) ++ rest = pairs
      rw [List.append_assoc, List.singleton_append]
      exact h3
  · simp only at h1 h2 h3 h4
    subst h1
    subst h4
    right
    exact ⟨rfl, h2, h3, rfl⟩

/-- The swap-discipline invariant holds after any number of micro-steps. -/
theorem runUpdater_inv (old pairs : List (ℤ × Descriptor)) (k : ℕ) :
    ((runUpdater old pairs k).swapped = false
      ∧ (runUpdater old pairs k).shared = old
      ∧ (runUpdater old pairs k).built ++ (runUpdater old pairs k).pending
          = pairs)
    ∨ ((runUpdater old pairs k).swapped = true
      ∧ (runUpdater old pairs k).shared = pairs
      ∧ (runUpdater old pairs k).built = pairs
      ∧ (runUpdater old pairs k).pending = []) := by
  induction k with
  | zero => exact Or.inl ⟨rfl, rfl, rfl⟩
  | succ k ih =>
    have hs : runUpdater old pairs (k + 1)
        = updStep (runUpdater old pairs k) := by
      unfold runUpdater
      exact Function.iterate_succ_apply' updStep k _
    rw [hs]
    exact updStep_inv ih

/-- Building the private map consumes exactly one micro-step per entry and
leaves the published cache untouched. -/
theorem updStep_iterate_build :
    ∀ (pairs built old : List (ℤ × Descriptor)),
      updStep^[pairs.length] ⟨old, built, pairs, false⟩
        = ⟨old, built ++ pairs, [], false⟩ := by
  intro pairs
  induction pairs with
  | nil =>
    intro built old
    simp
  | cons p rest ih =>
    intro built old
    rw [List.length_cons, Function.iterate_succ_apply]
    have hstep : updStep ⟨old, built, p :: rest, false⟩
        = ⟨old, built ++ [p], rest, false⟩ := rfl
    rw [hstep, ih (built ++ [p]) old, List.append_assoc,
      List.singleton_append]

/-- Claim C6: the cache replace is atomic under the swap discipline: after
any number of interleaved micro-steps a reader of the shared cache sees the
complete old snapshot or the complete new snapshot, never a mixture; the
update completes in `pairs.length + 1` micro-steps, and the completed shared
cache is exactly what `update_descriptors` installs. -/
theorem update_descriptors_atomic (old pairs : List (ℤ × Descriptor)) :
    (∀ k : ℕ, (runUpdater old pairs k).shared = old
        ∨ (runUpdater old pairs k).shared = pairs)
    ∧ runUpdater old pairs (pairs.length + 1) = ⟨pairs, pairs, [], true⟩
    ∧ ∀ R : FaceRecognizer,
        (R.update_descriptors pairs).cache
          = (runUpdater R.cache pairs (pairs.length + 1)).shared := by
  have hdone : runUpdater old pairs (pairs.length + 1)
      = ⟨pairs, pairs, [], true⟩ := by
    unfold runUpdater initUpd
    rw [Function.iterate_succ_apply' updStep pairs.length,
      updStep_iterate_build pairs [] old, List.nil_append]
    rfl
  refine ⟨?_, hdone, ?_⟩
  · intro k
    rcases runUpdater_inv old pairs k with ⟨-, h2, -⟩ | ⟨-, h2, -, -⟩
    · exact Or.inl h2
    · exact Or.inr h2
  · intro R
    have hdR : runUpdater R.cache pairs (pairs.length + 1)
        = ⟨pairs, pairs, [], true⟩ := by
      unfold runUpdater initUpd
      rw [Function.iterate_succ_apply' updStep pairs.length,
        updStep_iterate_build pairs [] R.cache, List.nil_append]
      rfl
    rw [hdR]
    rfl

/-- Claim C6 witness: a concrete mid-update interleaving point shows the
published cache as one of the two complete snapshots. -/
theorem update_descriptors_atomic_witness :
    (runUpdater [(1, [])] [(5, []), (6, [])] 1).shared = [(1, [])]
    ∨ (runUpdater [(1, [])] [(5, []), (6, [])] 1).shared
        = [(5, []), (6, [])] :=
  (update_descriptors_atomic [(1, [])] [(5, []), (6, [])]).1 1

/-- Claim C7: recognition is a pure function of the query and the
cache/threshold state — recognizers agreeing on cache and threshold agree on
every result — recognition operations never mutate the engine state, and any
number of repeated calls with the same descriptor yields the identical
result. -/
theorem recognition_pure_deterministic :
    (∀ (R R2 : FaceRecognizer) (q : Descriptor),
        R.cache = R2.cache → R.threshSq = R2.threshSq →
        R.recognize_by_descriptor q = R2.recognize_by_descriptor q)
    ∧ (∀ (R : FaceRecognizer) (q : Descriptor) (n : ℕ),
        runOps R (List.replicate n (EngineOp.recq q))
          = (R, List.replicate n (R.recognize_by_descriptor q))) := by
  constructor
  · intro R R2 q h1 h2
    unfold FaceRecognizer.recognize_by_descriptor
    rw [h1, h2]
  · intro R q n
    induction n with
    | zero => rfl
    | succ n ih => simp [List.replicate_succ, runOps, ih]

/-- Claim C7 witness: at the concrete recognizer, two repeated calls return
twice the same result, and an equal-state recognizer gives the same
answer. -/
theorem recognition_pure_deterministic_witness :
    exRecognizer.recognize_by_descriptor []
      = exRecognizer.recognize_by_descriptor []
    ∧ runOps exRecognizer (List.replicate 2 (EngineOp.recq []))
        = (exRecognizer,
           List.replicate 2 (exRecognizer.recognize_by_descriptor [])) :=
  ⟨recognition_pure_deterministic.1 exRecognizer exRecognizer [] rfl rfl,
   recognition_pure_deterministic.2 exRecognizer [] 2⟩

/-- Helper: a trace property holds for the trace component of a result
pair once it holds for the literal trace. -/
theorem offloadOk_pair {α : Type} (x : α) (l : List CallEv)
    (h : ∀ e ∈ l, offloadOk e) : ∀ e ∈ (x, l).2, offloadOk e :=
  h

/-- Helper: same for the trace component of a result triple. -/
theorem offloadOk_triple {α β : Type} (x : α) (y : β) (l : List CallEv)
    (h : ∀ e ∈ l, offloadOk e) : ∀ e ∈ (x, y, l).2.2, offloadOk e :=
  h

/-- Claim C8: over all service states and inputs, every recorded engine call
obeys the offload discipline: detection, normalization and embedding always
run on a worker thread, and everything the scheduler thread runs inline
(apart from awaited repository I/O) is a cache lookup, a cache swap or a
cheap validity check. -/
theorem cpu_work_offloaded :
    (∀ (S : AccessControlService) (room_id : ℤ) (image : NumpyImage),
        ∀ e ∈ (S.check_access_by_face room_id image).2, offloadOk e)
    ∧ (∀ (S : AccessControlService) (room_id : ℤ) (d : Descriptor),
        ∀ e ∈ (S.check_access_by_descriptor room_id d).2, offloadOk e)
    ∧ (∀ (S : AccessControlService) (image : NumpyImage),
        ∀ e ∈ (S.calculate_descriptor image).2, offloadOk e)
    ∧ (∀ (S : AccessControlService) (uid : ℤ) (d : Descriptor),
        ∀ e ∈ (S.update_user_descriptor uid d).2.2, offloadOk e) := by
  refine ⟨?_, ?_, ?_, ?_⟩
  · intro S room_id image
    unfold AccessControlService.check_access_by_face
    split
    · split
      · exact offloadOk_pair _ _ (by decide)
      · split
        · exact offloadOk_pair _ _ (by decide)
        · exact offloadOk_pair _ _ (by decide)
    · exact offloadOk_pair _ _ (by decide)
  · intro S room_id d
    unfold AccessControlService.check_access_by_descriptor
    split
    · split
      · exact offloadOk_pair _ _ (by decide)
      · split
        · exact offloadOk_pair _ _ (by decide)
        · exact offloadOk_pair _ _ (by decide)
    · exact offloadOk_pair _ _ (by decide)
  · intro S image
    unfold AccessControlService.calculate_descriptor
    split
    · split
      · exact offloadOk_pair _ _ (by decide)
      · exact offloadOk_pair _ _ (by decide)
    · exact offloadOk_pair _ _ (by decide)
  · intro S uid d
    unfold AccessControlService.update_user_descriptor
    split
    · exact offloadOk_triple _ _ _ (by decide)
    · exact offloadOk_triple _ _ _ (by decide)

/-- Claim C8 witness: a concrete worker-side embedding event from a concrete
request trace satisfies the discipline. -/
theorem cpu_work_offloaded_witness :
    offloadOk ⟨CallKind.embedderRun, ExecCtx.worker⟩ :=
  cpu_work_offloaded.2.2.1 exService validImg
    ⟨CallKind.embedderRun, ExecCtx.worker⟩ (by decide)

/-- Claim C9: an image failing `check_image_normalized` makes
`check_access_by_face` return the not-normalized error immediately; its trace
is the single inline validity check, so no recognition, no
detection/normalization and no repository call happens. -/
theorem non_normalized_image_rejected (S : AccessControlService)
    (room_id : ℤ) (image : NumpyImage)
    (h : S.recognizer.check_image_normalized image = false) :
    S.check_access_by_face room_id image
      = (SResult.err ("Provided image is not normalized."),
         [⟨CallKind.validityCheck, ExecCtx.scheduler⟩])
    ∧ ∀ e ∈ (S.check_access_by_face room_id image).2,
        e.kind ≠ CallKind.embedderRun ∧ e.kind ≠ CallKind.cacheLookup
          ∧ e.kind ≠ CallKind.detectorFind ∧ e.kind ≠ CallKind.normalizerRun
          ∧ e.kind ≠ CallKind.repoCall := by
  have he : S.check_access_by_face room_id image
      = (SResult.err ("Provided image is not normalized."),
         [⟨CallKind.validityCheck, ExecCtx.scheduler⟩]) := by
    unfold AccessControlService.check_access_by_face
    simp [h]
  refine ⟨he, ?_⟩
  rw [he]
  intro e hme
  rcases List.mem_singleton.mp hme with rfl
  exact ⟨by decide, by decide, by decide, by decide, by decide⟩

/-- Claim C9 witness: the concrete service rejects a non-canonical image
with the not-normalized error and an empty pipeline trace. -/
theorem non_normalized_image_rejected_witness :
    exService.recognizer.check_image_normalized validImg = false
    ∧ exService.check_access_by_face 2 validImg
        = (SResult.err ("Provided image is not normalized."),
           [⟨CallKind.validityCheck, ExecCtx.scheduler⟩]) :=
  ⟨by decide, (non_normalized_image_rejected exService 2 validImg (by decide)).1⟩

/-- Claim C10: in both access-check flows, a recognized descriptor id bound
to no user yields an error result naming that id, and a success result with
`is_known = true` is produced only when the repository binds the matched id
to a user (who is then carried in the result). -/
theorem unbound_descriptor_error (S : AccessControlService) (room_id : ℤ) :
    (∀ (image : NumpyImage) (i : ℤ) (dist : ℚ),
        S.recognizer.check_image_normalized image = true →
        S.recognizer.recognize image = RecognitionResult.known i dist →
        get_user_by_descriptor_id S.repo i = none →
        (S.check_access_by_face room_id image).1
          = SResult.err ("Calculated descriptor is known but not bound to user. (descriptor_id = " ++ toString i ++ ")"))
    ∧ (∀ (q : Descriptor) (i : ℤ) (dist : ℚ),
        S.recognizer.check_descriptor_valid q = true →
        S.recognizer.recognize_by_descriptor q
          = RecognitionResult.known i dist →
        get_user_by_descriptor_id S.repo i = none →
        (S.check_access_by_descriptor room_id q).1
          = SResult.err ("Provided descriptor is known, but not bound to user. (descriptor_id = " ++ toString i ++ ")"))
    ∧ (∀ (image : NumpyImage) (ac : AccessCheck),
        (S.check_access_by_face room_id image).1 = SResult.ok ac →
        ac.is_known = true →
        ∃ u i dist,
          S.recognizer.recognize image = RecognitionResult.known i dist
          ∧ get_user_by_descriptor_id S.repo i = some u
          ∧ ac.user = some u)
    ∧ (∀ (q : Descriptor) (ac : AccessCheck),
        (S.check_access_by_descriptor room_id q).1 = SResult.ok ac →
        ac.is_known = true →
        ∃ u i dist,
          S.recognizer.recognize_by_descriptor q
            = RecognitionResult.known i dist
          ∧ get_user_by_descriptor_id S.repo i = some u
          ∧ ac.user = some u) := by
  refine ⟨?_, ?_, ?_, ?_⟩
  · intro image i dist h1 h2 h3
    unfold AccessControlService.check_access_by_face
    simp [h1, h2, h3]
  · intro q i dist h1 h2 h3
    unfold AccessControlService.check_access_by_descriptor
    simp [h1, h2, h3]
  · intro image ac hok hk
    cases hb : S.recognizer.check_image_normalized image with
    | false =>
      have he : (S.check_access_by_face room_id image).1
          = SResult.err ("Provided image is not normalized.") := by
        unfold AccessControlService.check_access_by_face
        simp [hb]
      rw [he] at hok
      cases hok
    | true =>
      cases hr : S.recognizer.recognize image with
      | unknown =>
        have he : (S.check_access_by_face room_id image).1
            = SResult.ok ⟨false, none, none⟩ := by
          unfold AccessControlService.check_access_by_face
          simp [hb, hr]
        have h2 := he.symm.trans hok
        injection h2 with h3
        rw [← h3] at hk
        exact Bool.noConfusion hk
      | known i dist =>
        cases hu : get_user_by_descriptor_id S.repo i with
        | none =>
          have he : (S.check_access_by_face room_id image).1
              = SResult.err ("Calculated descriptor is known but not bound to user. (descriptor_id = " ++ toString i ++ ")") := by
            unfold AccessControlService.check_access_by_face
            simp [hb, hr, hu]
          have h2 := he.symm.trans hok
          cases h2
        | some u =>
          have he : (S.check_access_by_face room_id image).1
              = SResult.ok ⟨true,
                  some (check_access_permission_exist S.repo u.id room_id),
                  some u⟩ := by
            unfold AccessControlService.check_access_by_face
            simp [hb, hr, hu]
          have h2 := he.symm.trans hok
          injection h2 with h3
          exact ⟨u, i, dist, rfl, hu, by rw [← h3]⟩
  · intro q ac hok hk
    cases hb : S.recognizer.check_descriptor_valid q with
    | false =>
      have he : (S.check_access_by_descriptor room_id q).1
          = SResult.err ("Provided descriptor is invalid.") := by
        unfold AccessControlService.check_access_by_descriptor
        simp [hb]
      rw [he] at hok
      cases hok
    | true =>
      cases hr : S.recognizer.recognize_by_descriptor q with
      | unknown =>
        have he : (S.check_access_by_descriptor room_id q).1
            = SResult.ok ⟨false, none, none⟩ := by
          unfold AccessControlService.check_access_by_descriptor
          simp [hb, hr]
        have h2 := he.symm.trans hok
        injection h2 with h3
        rw [← h3] at hk
        exact Bool.noConfusion hk
      | known i dist =>
        cases hu : get_user_by_descriptor_id S.repo i with
        | none =>
          have he : (S.check_access_by_descriptor room_id q).1
              = SResult.err ("Provided descriptor is known, but not bound to user. (descriptor_id = " ++ toString i ++ ")") := by
            unfold AccessControlService.check_access_by_descriptor
            simp [hb, hr, hu]
          have h2 := he.symm.trans hok
          cases h2
        | some u =>
          have he : (S.check_access_by_descriptor room_id q).1
              = SResult.ok ⟨true,
                  some (check_access_permission_exist S.repo u.id room_id),
                  some u⟩ := by
            unfold AccessControlService.check_access_by_descriptor
            simp [hb, hr, hu]
          have h2 := he.symm.trans hok
          injection h2 with h3
          exact ⟨u, i, dist, rfl, hu, by rw [← h3]⟩

/-- Claim C10 witness: at the concrete service whose cached descriptor id 5
is bound to no user, the by-descriptor flow reports the unbound-id error
naming id 5. -/
theorem unbound_descriptor_error_witness :
    (exService.check_access_by_descriptor 2 []).1
      = SResult.err ("Provided descriptor is known, but not bound to user. (descriptor_id = 5)") :=
  (unbound_descriptor_error exService 2).2.1 [] 5 0
    (by decide) (by decide) (by decide)
